import Mathlib

/-!
Verification development for the `CurvedArrow` geometry engine
(`src/components/ui/curved-arrow.tsx`).

The engine's pure functions are shallowly embedded here:

* `calculatePosition` — the anchor resolver (dock table), over `ℚ`;
* the state-commit comparison inside `updateCoordinates`, over `ℚ`;
* `createCurvePath` — the curve path generator, the obstacle router and the
  direction resolution, over `ℝ` (floats are modelled as exact reals);
* `createArrowHead` — the arrowhead glyph generator, over `ℝ`.

SVG path strings produced by the source are modelled as lists of absolute
path segments (`Seg`), one constructor per SVG command actually emitted.
-/

namespace CurvedArrow

/-- A 2D point `{x, y}` in container space. -/
structure Point (α : Type) where
  x : α
  y : α
deriving DecidableEq

/-- `RectLite`: the `{x, y, width, height}` rectangle snapshot used by the
source for obstacles and (here) for entity rects. -/
structure RectLite (α : Type) where
  x : α
  y : α
  width : α
  height : α
deriving DecidableEq

/-- One absolute SVG path command, as emitted by the source's template
strings: `M`, `L`, `C`, `S`, `Q`, `A`, `Z`. -/
inductive Seg (α : Type) where
  | move (p : Point α)
  | line (p : Point α)
  | cubic (c1 c2 p : Point α)
  | scubic (c2 p : Point α)
  | quad (c p : Point α)
  | arc (rx ry rot : α) (largeArc sweep : Bool) (p : Point α)
  | close
deriving DecidableEq

/-- The coordinate a segment ends at (`none` for `Z`). -/
def segEnd {α : Type} : Seg α → Option (Point α)
  | .move p => some p
  | .line p => some p
  | .cubic _ _ p => some p
  | .scubic _ p => some p
  | .quad _ p => some p
  | .arc _ _ _ _ _ p => some p
  | .close => none

/-- First point of a path: the coordinate of its leading command. -/
def firstPoint {α : Type} (segs : List (Seg α)) : Option (Point α) :=
  segs.head?.bind segEnd

/-- Last point of a path: the coordinate its final command ends at. -/
def lastPoint {α : Type} : List (Seg α) → Option (Point α)
  | [] => none
  | [s] => segEnd s
  | _ :: rest => lastPoint rest

/-- The anchor resolver `calculatePosition(element, position)` from the
source.  The source reads `element.getBoundingClientRect()` and the
container's rect and forms `relativeX = rect.left - containerRect.left`,
`relativeY = rect.top - containerRect.top`; a missing container yields
`{x: 0, y: 0}`.  The 17-entry dock switch is reproduced verbatim with the
hard-coded `padding = 5`. -/
def calculatePosition (rect : RectLite ℚ) (containerRect : Option (RectLite ℚ))
    (position : String) : Point ℚ :=
  match containerRect with
  | none => ⟨0, 0⟩
  | some c =>
    let relativeX := rect.x - c.x
    let relativeY := rect.y - c.y
    let padding : ℚ := 5
    if position = "top" ∨ position = "top-center" then
      ⟨relativeX + rect.width / 2, relativeY - padding⟩
    else if position = "bottom" ∨ position = "bottom-center" then
      ⟨relativeX + rect.width / 2, relativeY + rect.height + padding⟩
    else if position = "left" ∨ position = "left-center" then
      ⟨relativeX - padding, relativeY + rect.height / 2⟩
    else if position = "right" ∨ position = "right-center" then
      ⟨relativeX + rect.width + padding, relativeY + rect.height / 2⟩
    else if position = "center" then
      ⟨relativeX + rect.width / 2, relativeY + rect.height / 2⟩
    else if position = "top-left" then
      ⟨relativeX, relativeY⟩
    else if position = "top-right" then
      ⟨relativeX + rect.width, relativeY⟩
    else if position = "bottom-left" then
      ⟨relativeX, relativeY + rect.height⟩
    else if position = "bottom-right" then
      ⟨relativeX + rect.width, relativeY + rect.height⟩
    else if position = "middle-left" ∨ position = "center-left" then
      ⟨relativeX, relativeY + rect.height / 2⟩
    else if position = "middle-right" ∨ position = "center-right" then
      ⟨relativeX + rect.width, relativeY + rect.height / 2⟩
    else if position = "middle-top" ∨ position = "center-top" then
      ⟨relativeX + rect.width / 2, relativeY⟩
    else if position = "middle-bottom" ∨ position = "center-bottom" then
      ⟨relativeX + rect.width / 2, relativeY + rect.height⟩
    else
      ⟨relativeX + rect.width / 2, relativeY + rect.height / 2⟩

/-- The coordinate state committed by `setCoordinates` in
`updateCoordinates`. -/
structure Coordinates where
  startX : ℚ
  startY : ℚ
  endX : ℚ
  endY : ℚ
  obstacleRects : List (RectLite ℚ)
deriving DecidableEq

/-- The functional updater passed to `setCoordinates` in
`updateCoordinates`: compare the freshly computed anchors and obstacle
rects against the previously committed state; when every coordinate delta
is `< 0.5` and the obstacle count is unchanged, return the previous state
object unchanged, otherwise commit the new state. -/
def commitCoordinates (prev : Coordinates) (spx spy epx epy : ℚ)
    (obstacleRects : List (RectLite ℚ)) : Coordinates :=
  if |prev.startX - spx| < 0.5 ∧ |prev.startY - spy| < 0.5 ∧
     |prev.endX - epx| < 0.5 ∧ |prev.endY - epy| < 0.5 ∧
     prev.obstacleRects.length = obstacleRects.length
  then prev
  else ⟨spx, spy, epx, epy, obstacleRects⟩

/-- Direction resolution at the top of `createCurvePath`: `"auto"` picks a
dominant axis from the deltas (`|dx| > |dy|` chooses up/down by the sign of
`dy`, otherwise left/right by the sign of `dx`). -/
noncomputable def resolveDirection (dx dy : ℝ) (curveDirection : String) : String :=
  if curveDirection = "auto" then
    if |dx| > |dy| then
      if dy > 0 then "up" else "down"
    else
      if dx > 0 then "left" else "right"
  else curveDirection

/-- The `switch (effectiveDirection)` that turns the base offset into
`(offsetX, offsetY)`; unmatched directions leave both offsets at `0`. -/
noncomputable def directionOffsets (effectiveDirection : String) (baseOffset : ℝ) : ℝ × ℝ :=
  if effectiveDirection = "up" then (0, -baseOffset)
  else if effectiveDirection = "down" then (0, baseOffset)
  else if effectiveDirection = "left" then (-baseOffset, 0)
  else if effectiveDirection = "right" then (baseOffset, 0)
  else (0, 0)

/-- Iteration `i` (1-based) of the `"wave"` loop: a quadratic segment to the
sample at `t = i/8`, with control at the midpoint of the previous and
current samples; each sample is displaced by `sin(t·π·4) · baseOffset · 0.3`. -/
noncomputable def waveSeg (sx sy dx dy baseOffset : ℝ) (i : ℕ) : Seg ℝ :=
  let segments : ℝ := 8
  let t : ℝ := (i : ℝ) / segments
  let x := sx + dx * t
  let y := sy + dy * t + Real.sin (t * Real.pi * 4) * baseOffset * 0.3
  let pt : ℝ := ((i : ℝ) - 1) / segments
  let px := sx + dx * pt
  let py := sy + dy * pt + Real.sin (pt * Real.pi * 4) * baseOffset * 0.3
  let cpx := (px + x) / 2
  let cpy := (py + y) / 2
  .quad ⟨cpx, cpy⟩ ⟨x, y⟩

/-- Iteration `i` (1-based) of the `"zigzag"` loop: a straight segment to the
sample at `t = i/6`, displaced by `±0.4 · baseOffset` depending on parity. -/
noncomputable def zigzagSeg (sx sy dx dy baseOffset : ℝ) (i : ℕ) : Seg ℝ :=
  let segments : ℝ := 6
  let t : ℝ := (i : ℝ) / segments
  let x := sx + dx * t
  let zz := if i % 2 = 0 then baseOffset * 0.4 else -(baseOffset * 0.4)
  let y := sy + dy * t + zz
  .line ⟨x, y⟩

/-- One step of the obstacle router's `obs.forEach` loop, threading the
accumulated waypoint segments and the running point `(cx, cy)`: expand the
obstacle by `margin = 25`, test
`cx < right && ex > left && min(cy, ey) < bottom && max(cy, ey) > top`,
and on intersection append one clearance waypoint and advance the running
point to it. -/
noncomputable def routeStep (ex ey : ℝ) (acc : List (Seg ℝ) × ℝ × ℝ)
    (o : RectLite ℝ) : List (Seg ℝ) × ℝ × ℝ :=
  let segs := acc.1
  let cx := acc.2.1
  let cy := acc.2.2
  let margin : ℝ := 25
  let left := o.x - margin
  let right := o.x + o.width + margin
  let top := o.y - margin
  let bottom := o.y + o.height + margin
  if cx < right ∧ ex > left ∧ min cy ey < bottom ∧ max cy ey > top then
    let goRight := ex > o.x + o.width / 2
    let goUp := ey < o.y + o.height / 2
    let wayX := if goRight then right + 20 else left - 20
    let wayY := if goUp then top - 10 else bottom + 10
    (segs ++ [.line ⟨wayX, wayY⟩], wayX, wayY)
  else
    (segs, cx, cy)

/-- Result of `createCurvePath`: the path (as segments) plus the second
control anchor `(control2X, control2Y)` used for tangent derivation. -/
structure CurveResult where
  pathSegs : List (Seg ℝ)
  control2X : ℝ
  control2Y : ℝ

/-- The curve path generator `createCurvePath` from the source, switching on
`curveType` exactly as the source's `switch` does (a JS `switch` on string
literals is a sequential equality chain).  `baseOffset = min(distance ×
curveIntensity, 150)` with `distance = hypot(dx, dy)`; the offset is applied
on the axis selected by the resolved direction. -/
noncomputable def createCurvePath (sx sy ex ey : ℝ) (obstacleRects : List (RectLite ℝ))
    (curveType curveDirection : String) (curveIntensity : ℝ) : CurveResult :=
  let dx := ex - sx
  let dy := ey - sy
  let distance := Real.sqrt (dx ^ 2 + dy ^ 2)
  let effectiveDirection := resolveDirection dx dy curveDirection
  let baseOffset := min (distance * curveIntensity) 150
  let offsets := directionOffsets effectiveDirection baseOffset
  let offsetX := offsets.1
  let offsetY := offsets.2
  if curveType = "smooth" then
    let c1x := sx + dx * 0.3 + offsetX * 0.5
    let c1y := sy + dy * 0.3 + offsetY * 0.5
    let c2x := ex - dx * 0.3 + offsetX * 0.5
    let c2y := ey - dy * 0.3 + offsetY * 0.5
    ⟨[.move ⟨sx, sy⟩, .cubic ⟨c1x, c1y⟩ ⟨c2x, c2y⟩ ⟨ex, ey⟩], c2x, c2y⟩
  else if curveType = "dramatic" then
    let c1x := sx + dx * 0.1 + offsetX * 1.5
    let c1y := sy + dy * 0.1 + offsetY * 1.5
    let c2x := ex - dx * 0.1 + offsetX * 1.5
    let c2y := ey - dy * 0.1 + offsetY * 1.5
    ⟨[.move ⟨sx, sy⟩, .cubic ⟨c1x, c1y⟩ ⟨c2x, c2y⟩ ⟨ex, ey⟩], c2x, c2y⟩
  else if curveType = "s-curve" then
    let c1x := sx + dx * 0.25 + offsetX * 0.8
    let c1y := sy + dy * 0.25 + offsetY * 0.8
    let c2x := ex - dx * 0.25 - offsetX * 0.8
    let c2y := ey - dy * 0.25 - offsetY * 0.8
    ⟨[.move ⟨sx, sy⟩, .cubic ⟨c1x, c1y⟩ ⟨c2x, c2y⟩ ⟨ex, ey⟩], c2x, c2y⟩
  else if curveType = "wave" then
    ⟨.move ⟨sx, sy⟩ :: (List.range 8).map (fun k => waveSeg sx sy dx dy baseOffset (k + 1)),
     sx + dx * 0.875, sy + dy * 0.875⟩
  else if curveType = "elegant" then
    let midX := (sx + ex) / 2 + offsetX * 0.8
    let midY := (sy + ey) / 2 + offsetY * 0.8
    let c1x := sx + dx * 0.2 + offsetX * 0.4
    let c1y := sy + dy * 0.2 + offsetY * 0.4
    let c2x := ex - dx * 0.2 + offsetX * 0.4
    let c2y := ey - dy * 0.2 + offsetY * 0.4
    ⟨[.move ⟨sx, sy⟩, .cubic ⟨c1x, c1y⟩ ⟨midX, midY⟩ ⟨midX, midY⟩,
      .scubic ⟨c2x, c2y⟩ ⟨ex, ey⟩], c2x, c2y⟩
  else if curveType = "zigzag" then
    ⟨(.move ⟨sx, sy⟩ :: (List.range 6).map (fun k => zigzagSeg sx sy dx dy baseOffset (k + 1)))
      ++ [.line ⟨ex, ey⟩],
     sx + dx * 0.833, sy + dy * 0.833⟩
  else if curveType = "around-obstacle" ∨ curveType = "shortest-path" then
    if obstacleRects.length ≠ 0 then
      let routed := obstacleRects.foldl (routeStep ex ey) ([], sx, sy)
      ⟨(.move ⟨sx, sy⟩ :: routed.1) ++ [.line ⟨ex, ey⟩], routed.2.1, routed.2.2⟩
    else
      let c1x := sx + dx * 0.3
      let c1y := sy + dy * 0.3
      let c2x := ex - dx * 0.3
      let c2y := ey - dy * 0.3
      ⟨[.move ⟨sx, sy⟩, .cubic ⟨c1x, c1y⟩ ⟨c2x, c2y⟩ ⟨ex, ey⟩], c2x, c2y⟩
  else
    let c1x := sx + dx * 0.3 + offsetX * 0.5
    let c1y := sy + dy * 0.3 + offsetY * 0.5
    let c2x := ex - dx * 0.3 + offsetX * 0.5
    let c2y := ey - dy * 0.3 + offsetY * 0.5
    ⟨[.move ⟨sx, sy⟩, .cubic ⟨c1x, c1y⟩ ⟨c2x, c2y⟩ ⟨ex, ey⟩], c2x, c2y⟩

/-- The arrowhead glyph generator `createArrowHead(x, y, angle, size, shape,
rotation, forceFilled)` from the source.  `totalAngle = angle + rotation·π/180`;
every branch reproduces the source's template string as a segment list. -/
noncomputable def createArrowHead (x y angle size : ℝ) (shape : String)
    (rotation : ℝ) (forceFilled : Bool) : List (Seg ℝ) :=
  let totalAngle := angle + rotation * Real.pi / 180
  let cos := Real.cos totalAngle
  let sin := Real.sin totalAngle
  if forceFilled ∧ (shape = "triangle" ∨ shape = "arrow" ∨ shape = "hollow-triangle") then
    let a := Real.pi / 6
    let fx1 := x - size * Real.cos (totalAngle - a)
    let fy1 := y - size * Real.sin (totalAngle - a)
    let fx2 := x - size * Real.cos (totalAngle + a)
    let fy2 := y - size * Real.sin (totalAngle + a)
    [.move ⟨x, y⟩, .line ⟨fx1, fy1⟩, .line ⟨fx2, fy2⟩, .close]
  else if shape = "triangle" ∨ shape = "arrow" then
    let a := Real.pi / 6
    let x1 := x - size * Real.cos (totalAngle - a)
    let y1 := y - size * Real.sin (totalAngle - a)
    let x2 := x - size * Real.cos (totalAngle + a)
    let y2 := y - size * Real.sin (totalAngle + a)
    [.move ⟨x, y⟩, .line ⟨x1, y1⟩, .move ⟨x, y⟩, .line ⟨x2, y2⟩]
  else if shape = "filled-triangle" then
    let a := Real.pi / 6
    let fx1 := x - size * Real.cos (totalAngle - a)
    let fy1 := y - size * Real.sin (totalAngle - a)
    let fx2 := x - size * Real.cos (totalAngle + a)
    let fy2 := y - size * Real.sin (totalAngle + a)
    [.move ⟨x, y⟩, .line ⟨fx1, fy1⟩, .line ⟨fx2, fy2⟩, .close]
  else if shape = "circle" ∨ shape = "filled-circle" then
    [.move ⟨x + size * cos, y + size * sin⟩,
     .arc size size 0 true true ⟨x - size * cos, y - size * sin⟩,
     .arc size size 0 true true ⟨x + size * cos, y + size * sin⟩]
  else if shape = "hollow-circle" then
    let r := size * 0.6
    [.move ⟨x + size * cos, y + size * sin⟩,
     .arc size size 0 true true ⟨x - size * cos, y - size * sin⟩,
     .arc size size 0 true true ⟨x + size * cos, y + size * sin⟩,
     .move ⟨x + r * cos, y + r * sin⟩,
     .arc r r 0 true false ⟨x - r * cos, y - r * sin⟩,
     .arc r r 0 true false ⟨x + r * cos, y + r * sin⟩]
  else if shape = "square" ∨ shape = "filled-square" then
    let h := size * 0.7
    [.move ⟨x + h * cos - h * sin, y + h * sin + h * cos⟩,
     .line ⟨x + h * cos + h * sin, y + h * sin - h * cos⟩,
     .line ⟨x - h * cos + h * sin, y - h * sin - h * cos⟩,
     .line ⟨x - h * cos - h * sin, y - h * sin + h * cos⟩, .close]
  else if shape = "diamond" ∨ shape = "filled-diamond" then
    let d := size * 0.8
    [.move ⟨x + d * cos, y + d * sin⟩, .line ⟨x + d * sin, y - d * cos⟩,
     .line ⟨x - d * cos, y - d * sin⟩, .line ⟨x - d * sin, y + d * cos⟩, .close]
  else if shape = "star" then
    let pt := fun (i : ℕ) =>
      let ang := totalAngle + (i : ℝ) * Real.pi / 5
      let r := if i % 2 = 0 then size else size * 0.4
      Point.mk (x + r * Real.cos ang) (y + r * Real.sin ang)
    (.move (pt 0) :: (List.range 9).map (fun k => .line (pt (k + 1)))) ++ [.close]
  else if shape = "heart" then
    let s := size * 0.6
    let hx1 := x - s * 0.5 * cos + s * 0.8 * sin
    let hy1 := y - s * 0.5 * sin - s * 0.8 * cos
    let hx2 := x + s * 0.5 * cos + s * 0.8 * sin
    let hy2 := y + s * 0.5 * sin - s * 0.8 * cos
    [.move ⟨x, y⟩,
     .cubic ⟨hx1, hy1⟩ ⟨x - s * cos, y - s * sin⟩ ⟨x - s * 0.5 * cos, y - s * 0.5 * sin⟩,
     .cubic ⟨x, y - s * sin⟩ ⟨x + s * 0.5 * cos, y + s * 0.5 * sin⟩ ⟨x + s * cos, y + s * sin⟩,
     .cubic ⟨hx2, hy2⟩ ⟨x, y⟩ ⟨x, y⟩]
  else if shape = "cross" then
    let s := size * 0.8
    [.move ⟨x - s * cos, y - s * sin⟩, .line ⟨x + s * cos, y + s * sin⟩,
     .move ⟨x - s * sin, y + s * cos⟩, .line ⟨x + s * sin, y - s * cos⟩]
  else if shape = "plus" then
    let s := size * 0.8
    [.move ⟨x - s * cos, y - s * sin⟩, .line ⟨x + s * cos, y + s * sin⟩,
     .move ⟨x, y - s⟩, .line ⟨x, y + s⟩]
  else if shape = "chevron" then
    let c := size * 0.8
    let x1 := x - c * Real.cos (totalAngle - Real.pi / 4)
    let y1 := y - c * Real.sin (totalAngle - Real.pi / 4)
    let x2 := x - c * Real.cos (totalAngle + Real.pi / 4)
    let y2 := y - c * Real.sin (totalAngle + Real.pi / 4)
    [.move ⟨x1, y1⟩, .line ⟨x, y⟩, .line ⟨x2, y2⟩]
  else if shape = "double-chevron" then
    let c := size * 0.6
    let x1 := x - c * Real.cos (totalAngle - Real.pi / 4)
    let y1 := y - c * Real.sin (totalAngle - Real.pi / 4)
    let x2 := x - c * Real.cos (totalAngle + Real.pi / 4)
    let y2 := y - c * Real.sin (totalAngle + Real.pi / 4)
    let x3 := x - c * 1.6 * Real.cos (totalAngle - Real.pi / 4)
    let y3 := y - c * 1.6 * Real.sin (totalAngle - Real.pi / 4)
    let x4 := x - c * 1.6 * Real.cos (totalAngle + Real.pi / 4)
    let y4 := y - c * 1.6 * Real.sin (totalAngle + Real.pi / 4)
    let cx := x - c * 0.8 * cos
    let cy := y - c * 0.8 * sin
    [.move ⟨x1, y1⟩, .line ⟨x, y⟩, .line ⟨x2, y2⟩,
     .move ⟨x3, y3⟩, .line ⟨cx, cy⟩, .line ⟨x4, y4⟩]
  else if shape = "line" then
    let s := size * 0.8
    [.move ⟨x - s * sin, y + s * cos⟩, .line ⟨x + s * sin, y - s * cos⟩]
  else if shape = "dot" then
    let r := size * 0.3
    [.move ⟨x + r, y⟩, .arc r r 0 true true ⟨x - r, y⟩, .arc r r 0 true true ⟨x + r, y⟩]
  else if shape = "dash" then
    let s := size * 0.6
    [.move ⟨x - s * cos, y - s * sin⟩, .line ⟨x + s * cos, y + s * sin⟩]
  else
    let a := Real.pi / 6
    let x1 := x - size * Real.cos (totalAngle - a)
    let y1 := y - size * Real.sin (totalAngle - a)
    let x2 := x - size * Real.cos (totalAngle + a)
    let y2 := y - size * Real.sin (totalAngle + a)
    [.move ⟨x, y⟩, .line ⟨x1, y1⟩, .move ⟨x, y⟩, .line ⟨x2, y2⟩]

/-- The last point of a path that ends in an explicit final segment is that
segment's endpoint, whatever comes before it. -/
theorem lastPoint_concat {α : Type} (l : List (Seg α)) (s : Seg α) :
    lastPoint (l ++ [s]) = segEnd s := by
  induction l with
  | nil => rfl
  | cons a t ih =>
    cases t with
    | nil => rfl
    | cons b u => exact ih

/-- Claim C1: for every pair of anchors, every curve style among the 8
presets, every intensity, every direction (and every obstacle list), the
generated path's first point equals the start anchor and its last point
equals the end anchor, exactly. -/
theorem path_endpoints_exact (ct : String)
    (h : ct ∈ ["smooth", "dramatic", "s-curve", "wave", "elegant", "zigzag",
               "around-obstacle", "shortest-path"])
    (sx sy ex ey : ℝ) (obs : List (RectLite ℝ)) (dir : String) (i : ℝ) :
    firstPoint (createCurvePath sx sy ex ey obs ct dir i).pathSegs = some ⟨sx, sy⟩ ∧
    lastPoint (createCurvePath sx sy ex ey obs ct dir i).pathSegs = some ⟨ex, ey⟩ := by
  have h4pi : Real.sin (Real.pi * 4) = 0 := by
    have hz := Real.sin_int_mul_pi 4
    push_cast at hz
    rw [mul_comm] at hz
    exact hz
  simp only [List.mem_cons, List.mem_singleton, List.not_mem_nil, or_false] at h
  rcases h with rfl | rfl | rfl | rfl | rfl | rfl | rfl | rfl
  · exact ⟨rfl, rfl⟩
  · exact ⟨rfl, rfl⟩
  · exact ⟨rfl, rfl⟩
  · refine ⟨rfl, ?_⟩
    simp only [createCurvePath,
      show ("wave" : String) ≠ "smooth" from by decide,
      show ("wave" : String) ≠ "dramatic" from by decide,
      show ("wave" : String) ≠ "s-curve" from by decide,
      eq_self_iff_true, if_true, ite_true, ite_false, if_false]
    show lastPoint (_ :: List.map _ (List.range 8)) = _
    rw [show List.range 8 = [0, 1, 2, 3, 4, 5, 6, 7] from rfl]
    simp only [List.map, lastPoint, segEnd, waveSeg]
    norm_num [Point.mk.injEq, h4pi]
  · exact ⟨rfl, rfl⟩
  · refine ⟨rfl, ?_⟩
    simp only [createCurvePath,
      show ("zigzag" : String) ≠ "smooth" from by decide,
      show ("zigzag" : String) ≠ "dramatic" from by decide,
      show ("zigzag" : String) ≠ "s-curve" from by decide,
      show ("zigzag" : String) ≠ "wave" from by decide,
      show ("zigzag" : String) ≠ "elegant" from by decide,
      eq_self_iff_true, if_true, ite_true, ite_false, if_false]
    rw [lastPoint_concat]
    rfl
  · by_cases hobs : obs.length = 0
    · rcases List.length_eq_zero.mp hobs with rfl
      exact ⟨rfl, rfl⟩
    · refine ⟨?_, ?_⟩ <;>
      · simp only [createCurvePath,
          show ("around-obstacle" : String) ≠ "smooth" from by decide,
          show ("around-obstacle" : String) ≠ "dramatic" from by decide,
          show ("around-obstacle" : String) ≠ "s-curve" from by decide,
          show ("around-obstacle" : String) ≠ "wave" from by decide,
          show ("around-obstacle" : String) ≠ "elegant" from by decide,
          show ("around-obstacle" : String) ≠ "zigzag" from by decide,
          eq_self_iff_true, if_true, ite_true, ite_false, if_false, true_or, or_true, ne_eq]
        rw [if_pos hobs]
        first
        | rfl
        | (rw [show Seg.move (Point.mk sx sy) :: (obs.foldl (routeStep ex ey) ([], sx, sy)).1
                 ++ [Seg.line (Point.mk ex ey)]
               = (Seg.move (Point.mk sx sy) :: (obs.foldl (routeStep ex ey) ([], sx, sy)).1)
                 ++ [Seg.line (Point.mk ex ey)] from rfl, lastPoint_concat]; rfl)
  · by_cases hobs : obs.length = 0
    · rcases List.length_eq_zero.mp hobs with rfl
      exact ⟨rfl, rfl⟩
    · refine ⟨?_, ?_⟩ <;>
      · simp only [createCurvePath,
          show ("shortest-path" : String) ≠ "smooth" from by decide,
          show ("shortest-path" : String) ≠ "dramatic" from by decide,
          show ("shortest-path" : String) ≠ "s-curve" from by decide,
          show ("shortest-path" : String) ≠ "wave" from by decide,
          show ("shortest-path" : String) ≠ "elegant" from by decide,
          show ("shortest-path" : String) ≠ "zigzag" from by decide,
          eq_self_iff_true, if_true, ite_true, ite_false, if_false, true_or, or_true, ne_eq]
        rw [if_pos hobs]
        first
        | rfl
        | (rw [show Seg.move (Point.mk sx sy) :: (obs.foldl (routeStep ex ey) ([], sx, sy)).1
                 ++ [Seg.line (Point.mk ex ey)]
               = (Seg.move (Point.mk sx sy) :: (obs.foldl (routeStep ex ey) ([], sx, sy)).1)
                 ++ [Seg.line (Point.mk ex ey)] from rfl, lastPoint_concat]; rfl)

/-- Witness for C1: the `smooth` style on anchors `(0,0) → (100,0)`. -/
theorem path_endpoints_exact_witness :
    ("smooth" : String) ∈ ["smooth", "dramatic", "s-curve", "wave", "elegant", "zigzag",
                           "around-obstacle", "shortest-path"] ∧
    (firstPoint (createCurvePath 0 0 100 0 [] "smooth" "auto" 0.4).pathSegs = some ⟨0, 0⟩ ∧
     lastPoint (createCurvePath 0 0 100 0 [] "smooth" "auto" 0.4).pathSegs = some ⟨100, 0⟩) :=
  ⟨by decide, path_endpoints_exact "smooth" (by decide) 0 0 100 0 [] "auto" 0.4⟩

/-- Claim C2: Scenario A.  For `start=(0,0)`, `end=(100,0)`, `smooth`,
`intensity=0.4`, `direction=auto`: the direction resolves to `down`
(`|dx| > |dy|` and `dy = 0` falls to the `down` arm), the offset is
`min(100·0.4, 150) = 40` applied on the y axis, and the result is a single
cubic with control points `(30,20)` and `(70,20)`. -/
theorem scenarioA_smooth_auto_resolution :
    resolveDirection (100 - 0) (0 - 0) "auto" = "down" ∧
    min (Real.sqrt (((100 : ℝ) - 0) ^ 2 + ((0 : ℝ) - 0) ^ 2) * 0.4) 150 = 40 ∧
    createCurvePath 0 0 100 0 [] "smooth" "auto" 0.4 =
      ⟨[.move ⟨0, 0⟩, .cubic ⟨30, 20⟩ ⟨70, 20⟩ ⟨100, 0⟩], 70, 20⟩ := by
  have hs : Real.sqrt (10000 : ℝ) = 100 := by
    rw [show (10000 : ℝ) = 100 ^ 2 by norm_num]
    exact Real.sqrt_sq (by norm_num)
  refine ⟨?_, ?_, ?_⟩
  · norm_num [resolveDirection]
  · rw [show ((100 : ℝ) - 0) ^ 2 + ((0 : ℝ) - 0) ^ 2 = 10000 by norm_num, hs]
    rw [min_eq_left (by norm_num)]
    norm_num
  · norm_num [createCurvePath, resolveDirection, directionOffsets, hs,
      CurveResult.mk.injEq, Point.mk.injEq,
      show ("down" : String) ≠ "up" from by decide]

/-- Counterexample for C3: the claim fails on the code twice.
First, its own Scenario C is wrong: the margin-25-expanded box of obstacle
`{x:40, y:40, w:20, h:20}` has `y ∈ [15, 85]` (not `[15, 65]`), so the
inserted waypoint is `(105, 95)`, not `(105, 75)`.  Second, the insertion
test is not symmetric x-range overlap: for the reversed segment
`start=(100,50) → end=(0,50)` both the x-ranges and the y-ranges overlap the
expanded box, yet no waypoint is inserted (the code tests `cx < right ∧
ex > left`, which presumes left-to-right travel). -/
theorem router_scenarioC_counterexample :
    createCurvePath 0 50 100 50 [⟨40, 40, 20, 20⟩] "around-obstacle" "auto" 0.4
      ≠ ⟨[.move ⟨0, 50⟩, .line ⟨105, 75⟩, .line ⟨100, 50⟩], 105, 75⟩ ∧
    (min (100 : ℝ) 0 < 85 ∧ max (100 : ℝ) 0 > 15 ∧
     min (50 : ℝ) 50 < 65 ∧ max (50 : ℝ) 50 > 15 ∧
     (createCurvePath 100 50 0 50 [⟨40, 40, 20, 20⟩] "around-obstacle" "auto" 0.4).pathSegs
       = [.move ⟨100, 50⟩, .line ⟨0, 50⟩]) := by
  constructor
  · simp only [createCurvePath, routeStep, List.foldl,
      show ("around-obstacle" : String) ≠ "smooth" from by decide,
      show ("around-obstacle" : String) ≠ "dramatic" from by decide,
      show ("around-obstacle" : String) ≠ "s-curve" from by decide,
      show ("around-obstacle" : String) ≠ "wave" from by decide,
      show ("around-obstacle" : String) ≠ "elegant" from by decide,
      show ("around-obstacle" : String) ≠ "zigzag" from by decide,
      eq_self_iff_true, if_false, if_true, ite_true, ite_false, true_or, or_true,
      ne_eq, List.length_cons, List.length_nil]
    norm_num
  · refine ⟨by norm_num, by norm_num, by norm_num, by norm_num, ?_⟩
    simp only [createCurvePath, routeStep, List.foldl,
      show ("around-obstacle" : String) ≠ "smooth" from by decide,
      show ("around-obstacle" : String) ≠ "dramatic" from by decide,
      show ("around-obstacle" : String) ≠ "s-curve" from by decide,
      show ("around-obstacle" : String) ≠ "wave" from by decide,
      show ("around-obstacle" : String) ≠ "elegant" from by decide,
      show ("around-obstacle" : String) ≠ "zigzag" from by decide,
      eq_self_iff_true, if_false, if_true, ite_true, ite_false, true_or, or_true,
      ne_eq, List.length_cons, List.length_nil]
    norm_num

/-- Claim C3 as amended: the router expands each obstacle by margin 25 and
inserts exactly one waypoint if and only if `cx < right ∧ ex > left ∧
min(cy,ey) < bottom ∧ max(cy,ey) > top` — a directional x-test (assuming
travel toward positive x), not symmetric x-range overlap — with the waypoint
20 units beyond the expanded box horizontally and 10 units vertically, sides
chosen by where `end` lies; in Scenario C the expanded box is
`x ∈ [15,85], y ∈ [15,85]` and the waypoint is `(105, 95)`. -/
theorem router_single_obstacle_characterization :
    (∀ (sx sy ex ey : ℝ) (o : RectLite ℝ) (dir : String) (i : ℝ),
      (createCurvePath sx sy ex ey [o] "around-obstacle" dir i).pathSegs =
        if sx < o.x + o.width + 25 ∧ ex > o.x - 25 ∧
           min sy ey < o.y + o.height + 25 ∧ max sy ey > o.y - 25 then
          [.move ⟨sx, sy⟩,
           .line ⟨(if ex > o.x + o.width / 2 then o.x + o.width + 25 + 20 else o.x - 25 - 20),
                  (if ey < o.y + o.height / 2 then o.y - 25 - 10 else o.y + o.height + 25 + 10)⟩,
           .line ⟨ex, ey⟩]
        else [.move ⟨sx, sy⟩, .line ⟨ex, ey⟩]) ∧
    createCurvePath 0 50 100 50 [⟨40, 40, 20, 20⟩] "around-obstacle" "auto" 0.4 =
      ⟨[.move ⟨0, 50⟩, .line ⟨105, 95⟩, .line ⟨100, 50⟩], 105, 95⟩ := by
  constructor
  · intro sx sy ex ey o dir i
    simp only [createCurvePath, routeStep, List.foldl,
      show ("around-obstacle" : String) ≠ "smooth" from by decide,
      show ("around-obstacle" : String) ≠ "dramatic" from by decide,
      show ("around-obstacle" : String) ≠ "s-curve" from by decide,
      show ("around-obstacle" : String) ≠ "wave" from by decide,
      show ("around-obstacle" : String) ≠ "elegant" from by decide,
      show ("around-obstacle" : String) ≠ "zigzag" from by decide,
      eq_self_iff_true, if_false, if_true, ite_true, ite_false, true_or, or_true,
      ne_eq, List.length_cons, List.length_nil]
    norm_num
    split
    · simp
    · simp
  · simp only [createCurvePath, routeStep, List.foldl,
      show ("around-obstacle" : String) ≠ "smooth" from by decide,
      show ("around-obstacle" : String) ≠ "dramatic" from by decide,
      show ("around-obstacle" : String) ≠ "s-curve" from by decide,
      show ("around-obstacle" : String) ≠ "wave" from by decide,
      show ("around-obstacle" : String) ≠ "elegant" from by decide,
      show ("around-obstacle" : String) ≠ "zigzag" from by decide,
      eq_self_iff_true, if_false, if_true, ite_true, ite_false, true_or, or_true,
      ne_eq, List.length_cons, List.length_nil]
    norm_num

/-- Claim C4: for every entity rect, the dock table maps edge docks (and
their `*-center` forms) 5 units outward along the normal axis, corner docks
exactly onto the corner, and `center` to the centroid; in particular dock
`top` on rect `{x:10, y:10, w:20, h:10}` resolves to `(20, 5)`. -/
theorem dock_table_resolution (rect : RectLite ℚ) :
    calculatePosition rect (some ⟨0, 0, 0, 0⟩) "top" = ⟨rect.x + rect.width / 2, rect.y - 5⟩ ∧
    calculatePosition rect (some ⟨0, 0, 0, 0⟩) "top-center" = ⟨rect.x + rect.width / 2, rect.y - 5⟩ ∧
    calculatePosition rect (some ⟨0, 0, 0, 0⟩) "bottom" = ⟨rect.x + rect.width / 2, rect.y + rect.height + 5⟩ ∧
    calculatePosition rect (some ⟨0, 0, 0, 0⟩) "bottom-center" = ⟨rect.x + rect.width / 2, rect.y + rect.height + 5⟩ ∧
    calculatePosition rect (some ⟨0, 0, 0, 0⟩) "left" = ⟨rect.x - 5, rect.y + rect.height / 2⟩ ∧
    calculatePosition rect (some ⟨0, 0, 0, 0⟩) "left-center" = ⟨rect.x - 5, rect.y + rect.height / 2⟩ ∧
    calculatePosition rect (some ⟨0, 0, 0, 0⟩) "right" = ⟨rect.x + rect.width + 5, rect.y + rect.height / 2⟩ ∧
    calculatePosition rect (some ⟨0, 0, 0, 0⟩) "right-center" = ⟨rect.x + rect.width + 5, rect.y + rect.height / 2⟩ ∧
    calculatePosition rect (some ⟨0, 0, 0, 0⟩) "center" = ⟨rect.x + rect.width / 2, rect.y + rect.height / 2⟩ ∧
    calculatePosition rect (some ⟨0, 0, 0, 0⟩) "top-left" = ⟨rect.x, rect.y⟩ ∧
    calculatePosition rect (some ⟨0, 0, 0, 0⟩) "top-right" = ⟨rect.x + rect.width, rect.y⟩ ∧
    calculatePosition rect (some ⟨0, 0, 0, 0⟩) "bottom-left" = ⟨rect.x, rect.y + rect.height⟩ ∧
    calculatePosition rect (some ⟨0, 0, 0, 0⟩) "bottom-right" = ⟨rect.x + rect.width, rect.y + rect.height⟩ ∧
    calculatePosition ⟨10, 10, 20, 10⟩ (some ⟨0, 0, 0, 0⟩) "top" = ⟨20, 5⟩ := by
  simp +decide [calculatePosition]
  norm_num

/-- Claim C5: if all four coordinate deltas are strictly below `0.5` and the
obstacle count is unchanged, the committed state object is returned
unchanged — the update is discarded. -/
theorem tolerance_suppression_no_commit (prev : Coordinates) (spx spy epx epy : ℚ)
    (obs : List (RectLite ℚ))
    (h1 : |prev.startX - spx| < 0.5) (h2 : |prev.startY - spy| < 0.5)
    (h3 : |prev.endX - epx| < 0.5) (h4 : |prev.endY - epy| < 0.5)
    (h5 : prev.obstacleRects.length = obs.length) :
    commitCoordinates prev spx spy epx epy obs = prev := by
  simp only [commitCoordinates]
  rw [if_pos ⟨h1, h2, h3, h4, h5⟩]

/-- Witness for C5: a quarter-unit move of the start anchor is suppressed. -/
theorem tolerance_suppression_no_commit_witness :
    (|(0 : ℚ) - 1/4| < 0.5 ∧ |(0 : ℚ) - 0| < 0.5 ∧
     |(100 : ℚ) - 100| < 0.5 ∧ |(100 : ℚ) - 100| < 0.5 ∧
     ([] : List (RectLite ℚ)).length = ([] : List (RectLite ℚ)).length) ∧
    commitCoordinates ⟨0, 0, 100, 100, []⟩ (1/4) 0 100 100 [] = ⟨0, 0, 100, 100, []⟩ :=
  ⟨⟨by norm_num [abs_lt], by norm_num, by norm_num, by norm_num, rfl⟩,
   tolerance_suppression_no_commit ⟨0, 0, 100, 100, []⟩ (1/4) 0 100 100 []
     (by norm_num [abs_lt]) (by norm_num) (by norm_num) (by norm_num) rfl⟩

/-- Claim C6: with an empty obstacle list, `around-obstacle` and
`shortest-path` both produce exactly the smooth-fallback cubic with control
points `start + 0.3·delta` and `end − 0.3·delta`, with no direction offset
term. -/
theorem obstacle_free_fallback_cubic (sx sy ex ey : ℝ) (dir : String) (i : ℝ) :
    createCurvePath sx sy ex ey [] "around-obstacle" dir i =
      ⟨[.move ⟨sx, sy⟩,
        .cubic ⟨sx + (ex - sx) * 0.3, sy + (ey - sy) * 0.3⟩
               ⟨ex - (ex - sx) * 0.3, ey - (ey - sy) * 0.3⟩ ⟨ex, ey⟩],
       ex - (ex - sx) * 0.3, ey - (ey - sy) * 0.3⟩ ∧
    createCurvePath sx sy ex ey [] "shortest-path" dir i =
      ⟨[.move ⟨sx, sy⟩,
        .cubic ⟨sx + (ex - sx) * 0.3, sy + (ey - sy) * 0.3⟩
               ⟨ex - (ex - sx) * 0.3, ey - (ey - sy) * 0.3⟩ ⟨ex, ey⟩],
       ex - (ex - sx) * 0.3, ey - (ey - sy) * 0.3⟩ := by
  constructor
  · simp [createCurvePath]
  · simp [createCurvePath]

/-- Claim C7: every curve-type string outside the eight implemented styles
produces exactly the same path and control anchor as `smooth` on the same
inputs. -/
theorem unrecognized_curve_type_falls_back_to_smooth (ct : String)
    (h : ct ∉ ["smooth", "dramatic", "s-curve", "wave", "elegant", "zigzag",
               "around-obstacle", "shortest-path"])
    (sx sy ex ey : ℝ) (obs : List (RectLite ℝ)) (dir : String) (i : ℝ) :
    createCurvePath sx sy ex ey obs ct dir i =
      createCurvePath sx sy ex ey obs "smooth" dir i := by
  simp only [List.mem_cons, List.mem_singleton, not_or] at h
  obtain ⟨h1, h2, h3, h4, h5, h6, h7, h8⟩ := h
  simp [createCurvePath, h1, h2, h3, h4, h5, h6, h7, h8]

/-- Witness for C7: the reserved identifier `spiral`. -/
theorem unrecognized_curve_type_falls_back_to_smooth_witness :
    ("spiral" : String) ∉ ["smooth", "dramatic", "s-curve", "wave", "elegant", "zigzag",
                           "around-obstacle", "shortest-path"] ∧
    createCurvePath 0 0 100 0 [] "spiral" "auto" 0.4 =
      createCurvePath 0 0 100 0 [] "smooth" "auto" 0.4 :=
  ⟨by decide,
   unrecognized_curve_type_falls_back_to_smooth "spiral" (by decide) 0 0 100 0 [] "auto" 0.4⟩

/-- Counterexample for C8: at `start=(0,0)`, `end=(10,0)`, `smooth`,
`direction=auto`, `intensity=4` the generator uses the intensity unclamped:
the bow offset is `min(10·4, 150) = 40` (visible as the `20 = 40·0.5` in the
control points), whereas the claimed clamped formula would give
`min(10·min(max(4, 0.1), 2), 150)·0.5 = 10 ≠ 20`. -/
theorem intensity_clamp_counterexample :
    (createCurvePath 0 0 10 0 [] "smooth" "auto" 4).pathSegs =
      [.move ⟨0, 0⟩, .cubic ⟨3, 20⟩ ⟨7, 20⟩ ⟨10, 0⟩] ∧
    (20 : ℝ) = min (10 * 4) 150 * 0.5 ∧
    (20 : ℝ) ≠ min (10 * min (max (4 : ℝ) 0.1) 2) 150 * 0.5 := by
  have hs : Real.sqrt (100 : ℝ) = 10 := by
    rw [show (100 : ℝ) = 10 ^ 2 by norm_num]
    exact Real.sqrt_sq (by norm_num)
  refine ⟨?_, ?_, ?_⟩
  · norm_num [createCurvePath, resolveDirection, directionOffsets, hs,
      Point.mk.injEq, show ("down" : String) ≠ "up" from by decide]
  · rw [min_eq_left (by norm_num)]; norm_num
  · rw [show min (max (4 : ℝ) 0.1) 2 = 2 by
        rw [max_eq_left (by norm_num)]; exact min_eq_right (by norm_num)]
    rw [min_eq_left (by norm_num)]; norm_num

/-- Claim C8 as amended: the generator applies `curveIntensity` unclamped —
for every input the bow offset equals `min(distance × intensity, 150)`
(shown here on the `smooth` style with direction `down`, where the offset
lands on the y components of the control points). -/
theorem offset_formula_unclamped (sx sy ex ey : ℝ) (obs : List (RectLite ℝ)) (i : ℝ) :
    createCurvePath sx sy ex ey obs "smooth" "down" i =
      ⟨[.move ⟨sx, sy⟩,
        .cubic ⟨sx + (ex - sx) * 0.3,
                sy + (ey - sy) * 0.3 +
                  min (Real.sqrt ((ex - sx) ^ 2 + (ey - sy) ^ 2) * i) 150 * 0.5⟩
               ⟨ex - (ex - sx) * 0.3,
                ey - (ey - sy) * 0.3 +
                  min (Real.sqrt ((ex - sx) ^ 2 + (ey - sy) ^ 2) * i) 150 * 0.5⟩
               ⟨ex, ey⟩],
       ex - (ex - sx) * 0.3,
       ey - (ey - sy) * 0.3 +
         min (Real.sqrt ((ex - sx) ^ 2 + (ey - sy) ^ 2) * i) 150 * 0.5⟩ := by
  simp [createCurvePath, resolveDirection, directionOffsets,
    show ("down" : String) ≠ "auto" from by decide,
    show ("down" : String) ≠ "up" from by decide]
  try ring_nf

/-- Claim C9: Scenario D.  Head `filled-triangle`, size 20, tangent angle 0,
rotation 0 at `(50,50)` is the closed path `M 50 50 L x1 y1 L x2 y2 Z` whose
wing points sit at `±30°` behind the tip at distance 20:
`x1 = x2 = 50 − 20·cos(π/6)`, `y1 = 60`, `y2 = 40`. -/
theorem filled_triangle_scenarioD :
    createArrowHead 50 50 0 20 "filled-triangle" 0 false =
      [.move ⟨50, 50⟩,
       .line ⟨50 - 20 * Real.cos (Real.pi / 6), 60⟩,
       .line ⟨50 - 20 * Real.cos (Real.pi / 6), 40⟩, .close] := by
  simp only [createArrowHead,
    show ("filled-triangle" : String) ≠ "triangle" from by decide,
    show ("filled-triangle" : String) ≠ "arrow" from by decide,
    eq_self_iff_true, if_true, ite_true, ite_false, if_false, false_and, or_false,
    false_or, Bool.false_eq_true]
  norm_num [zero_sub, Real.cos_neg, Real.sin_neg, Real.sin_pi_div_six, Point.mk.injEq]

/-- Claim C10: the alias docks `middle-*`/`center-*` resolve to the exact
midpoint of the corresponding rect edge with no padding, and therefore
differ from the padded docks `left/right/top/bottom` (and their `*-center`
forms), which sit 5 units outward. -/
theorem alias_docks_edge_midpoints (rect : RectLite ℚ) :
    calculatePosition rect (some ⟨0, 0, 0, 0⟩) "middle-left" = ⟨rect.x, rect.y + rect.height / 2⟩ ∧
    calculatePosition rect (some ⟨0, 0, 0, 0⟩) "center-left" = ⟨rect.x, rect.y + rect.height / 2⟩ ∧
    calculatePosition rect (some ⟨0, 0, 0, 0⟩) "middle-right" = ⟨rect.x + rect.width, rect.y + rect.height / 2⟩ ∧
    calculatePosition rect (some ⟨0, 0, 0, 0⟩) "center-right" = ⟨rect.x + rect.width, rect.y + rect.height / 2⟩ ∧
    calculatePosition rect (some ⟨0, 0, 0, 0⟩) "middle-top" = ⟨rect.x + rect.width / 2, rect.y⟩ ∧
    calculatePosition rect (some ⟨0, 0, 0, 0⟩) "center-top" = ⟨rect.x + rect.width / 2, rect.y⟩ ∧
    calculatePosition rect (some ⟨0, 0, 0, 0⟩) "middle-bottom" = ⟨rect.x + rect.width / 2, rect.y + rect.height⟩ ∧
    calculatePosition rect (some ⟨0, 0, 0, 0⟩) "center-bottom" = ⟨rect.x + rect.width / 2, rect.y + rect.height⟩ ∧
    calculatePosition rect (some ⟨0, 0, 0, 0⟩) "middle-left" ≠ calculatePosition rect (some ⟨0, 0, 0, 0⟩) "left" ∧
    calculatePosition rect (some ⟨0, 0, 0, 0⟩) "center-left" ≠ calculatePosition rect (some ⟨0, 0, 0, 0⟩) "left-center" ∧
    calculatePosition rect (some ⟨0, 0, 0, 0⟩) "middle-right" ≠ calculatePosition rect (some ⟨0, 0, 0, 0⟩) "right" ∧
    calculatePosition rect (some ⟨0, 0, 0, 0⟩) "center-right" ≠ calculatePosition rect (some ⟨0, 0, 0, 0⟩) "right-center" ∧
    calculatePosition rect (some ⟨0, 0, 0, 0⟩) "middle-top" ≠ calculatePosition rect (some ⟨0, 0, 0, 0⟩) "top" ∧
    calculatePosition rect (some ⟨0, 0, 0, 0⟩) "center-top" ≠ calculatePosition rect (some ⟨0, 0, 0, 0⟩) "top-center" ∧
    calculatePosition rect (some ⟨0, 0, 0, 0⟩) "middle-bottom" ≠ calculatePosition rect (some ⟨0, 0, 0, 0⟩) "bottom" ∧
    calculatePosition rect (some ⟨0, 0, 0, 0⟩) "center-bottom" ≠ calculatePosition rect (some ⟨0, 0, 0, 0⟩) "bottom-center" := by
  simp +decide [calculatePosition, Point.mk.injEq]
  refine ⟨?_, ?_⟩ <;> intro hcontra <;> linarith

end CurvedArrow
